import Mathlib

/-!
Verification of the 88status reset-orchestration engine.

Shallow embedding of:
  - the token-bucket rate limiter and response normalization of
    `src/core/services/APIClient.ts` (class `TokenBucket`, `APIClient.request`,
    `APIClient.resetCredits`),
  - the eligibility filter and result aggregation of
    `ResetService.executeReset` / `resetSingleSubscription`,
  - the daily-dedupe transition of `Scheduler.executeScheduledReset`,
  - the next-reset computation of the `GET_STATUS` handler in
    `src/background/service-worker.ts`.

JavaScript numbers are modelled as rationals (`Rat`), wall-clock timestamps as
integers (milliseconds), dynamic JSON values as the `JsVal` inductive, and
fallible operations as `Except`.
-/

set_option maxRecDepth 8000

namespace Code88

/-! ## JavaScript value model

A minimal model of the dynamically typed values the client handles after
`JSON.parse` (plus `undefined`, which the normalization code probes for).
Arrays are not needed by any verified path and are omitted from the universe.
-/

inductive JsVal where
  | undef : JsVal
  | null : JsVal
  | bool : Bool → JsVal
  | num : Rat → JsVal
  | str : String → JsVal
  | obj : List (String × JsVal) → JsVal

/-- Property lookup `v[k]`; `none` models JavaScript `undefined` for a missing
property or for property access on a primitive. -/
def jsGet (v : JsVal) (k : String) : Option JsVal :=
  match v with
  | .obj fields => fields.lookup k
  | _ => none

/-- Property lookup that also maps a present-but-`undefined` field to `none`
(JavaScript cannot distinguish the two via `=== undefined` / `??`). -/
def jsField (v : JsVal) (k : String) : Option JsVal :=
  match jsGet v k with
  | some .undef => none
  | o => o

/-- Optional chaining `o?.[k]`. -/
def jsChain (o : Option JsVal) (k : String) : Option JsVal :=
  match o with
  | none => none
  | some .null => none
  | some .undef => none
  | some v => jsField v k

/-- JavaScript truthiness. -/
def jsTruthy (v : JsVal) : Bool :=
  match v with
  | .undef => false
  | .null => false
  | .bool b => b
  | .num q => q != 0
  | .str s => s != ""
  | .obj _ => true

/-- String coercion (template-literal / `String(x)` style); objects render as
JavaScript renders plain objects. -/
def jsToString (v : JsVal) : String :=
  match v with
  | .undef => "undefined"
  | .null => "null"
  | .bool b => toString b
  | .num q => toString q
  | .str s => s
  | .obj _ => "[object Object]"

/-- `typeof v === 'object'` for the values `JSON.parse` can yield (note
`typeof null === 'object'` in JavaScript). -/
def jsIsObjectType (v : JsVal) : Bool :=
  match v with
  | .obj _ => true
  | .null => true
  | _ => false

/-- `Object.keys` on a non-null value: own enumerable keys of an object,
index keys of a string, empty for other primitives.  (`Object.keys` on
`null`/`undefined` throws; the caller models that branch separately.) -/
def jsKeys (v : JsVal) : List String :=
  match v with
  | .obj fields => fields.map (fun f => f.1)
  | .str s => (List.range s.length).map toString
  | _ => []

/-- Property assignment `v[k] = x` on an object: replaces the value in place
if the key exists, otherwise appends the key (JavaScript insertion order). -/
def jsSet (v : JsVal) (k : String) (x : JsVal) : JsVal :=
  match v with
  | .obj fields =>
      if (fields.lookup k).isSome then
        .obj (fields.map (fun f => if f.1 = k then (f.1, x) else f))
      else
        .obj (fields ++ [(k, x)])
  | other => other

/-- Property lookup under `??`: a present `null` or `undefined` behaves like
an absent property (nullish coalescing). -/
def jsGetNullish (v : JsVal) (k : String) : Option JsVal :=
  match jsGet v k with
  | some .undef => none
  | some .null => none
  | o => o

/-- `x || d` for an optional string-ish slot (`undefined`/falsy picks the
default). -/
def jsStrOr (o : Option JsVal) (d : String) : String :=
  match o with
  | some v => if jsTruthy v then jsToString v else d
  | none => d

/-- `s || d` on strings (empty string is falsy). -/
def strOr (s d : String) : String :=
  if s = "" then d else s

/-- Contiguous-substring test on character lists. -/
def charsIncludes (pat : List Char) : List Char → Bool
  | [] => pat.isPrefixOf ([] : List Char)
  | c :: rest => pat.isPrefixOf (c :: rest) || charsIncludes pat rest

/-- JavaScript `String.prototype.includes`: contiguous-substring test. -/
def strIncludes (s pat : String) : Bool :=
  charsIncludes pat.data s.data

/-- `String.prototype.toUpperCase` (per-character uppercasing; coincides with
JavaScript on the ASCII plan names the code probes). -/
def strToUpper (s : String) : String :=
  ⟨s.data.map Char.toUpper⟩

/-- `String.prototype.trim`: strip leading and trailing whitespace. -/
def strTrim (s : String) : String :=
  ⟨((s.data.dropWhile Char.isWhitespace).reverse.dropWhile Char.isWhitespace).reverse⟩

/-! ## TokenBucket (`APIClient.ts` lines 57–107)

`tokens` and timestamps are rationals: the JS implementation works on
floating-point numbers and accumulates fractional token amounts.
-/

structure TokenBucket where
  capacity : Rat
  refillRate : Rat
  refillInterval : Rat
  tokens : Rat
  lastRefill : Rat
deriving DecidableEq, Repr

namespace TokenBucket

/-- The constructor: a fresh bucket is full (`tokens = capacity`,
`lastRefill = Date.now()`). -/
def init (capacity refillRate refillInterval now : Rat) : TokenBucket :=
  { capacity := capacity, refillRate := refillRate, refillInterval := refillInterval,
    tokens := capacity, lastRefill := now }

/-- `private refill()`: continuous proportional refill, capped at capacity. -/
def refill (b : TokenBucket) (now : Rat) : TokenBucket :=
  let timePassed := now - b.lastRefill
  let tokensToAdd := timePassed / b.refillInterval * b.refillRate
  if 0 < tokensToAdd then
    { b with tokens := min b.capacity (b.tokens + tokensToAdd), lastRefill := now }
  else
    b

/-- `consume()`: refill, then take one token when `this.tokens > 0`.
(The source checks `> 0`, not `>= 1`.) -/
def consume (b : TokenBucket) (now : Rat) : Bool × TokenBucket :=
  let b' := refill b now
  if 0 < b'.tokens then (true, { b' with tokens := b'.tokens - 1 })
  else (false, b')

/-- A sequence of `consume()` calls at the given wall-clock times. -/
def consumeTrace (b : TokenBucket) : List Rat → TokenBucket
  | [] => b
  | t :: ts => consumeTrace (consume b t).2 ts

/-- The client's bucket: capacity 30, 20 tokens per 60000 ms
(`RATE_LIMIT_CONFIG`). -/
def std (now : Rat) : TokenBucket := init 30 20 60000 now

end TokenBucket

/-! ## APIClient response handling (`APIClient.ts` lines 135–360)

The request path from the point the HTTP response has arrived.  The
transport (fetch, timeout, rate limiting) is environmental; the response is
given as a record of the facts the handler probes: status, statusText, the
content-length header, the raw body text, and the result of `JSON.parse` on
the body (`none` when the body is not valid JSON).
-/

structure HttpResponse where
  status : Nat
  statusText : String
  contentLength : Option String
  bodyText : String
  /-- `JSON.parse(bodyText)`: `none` when the body does not parse. -/
  json : Option JsVal

/-- `response.ok` of the fetch API: status in the inclusive range 200–299. -/
def statusOk (status : Nat) : Bool :=
  decide (200 ≤ status ∧ status < 300)

/-- The implicit success sentinel `{ success: true, message: '操作成功' }`
returned for empty or degenerate-but-successful responses. -/
def defaultSuccessVal : JsVal :=
  .obj [("success", .bool true), ("message", .str "操作成功")]

structure APIError where
  code : String
  message : String
deriving DecidableEq, Repr

/-- `response.hasOnlyUndefinedSuccess` probe: `v === undefined` on a property
lookup result. -/
def isUndefOpt (o : Option JsVal) : Bool :=
  match o with
  | some .undef => true
  | _ => false

/-- `responseData.success = true; if (!responseData.message) message = '操作成功'`
(lines 323–330): normalization applied when a `success` field is present with
value `undefined`. -/
def normalizeUndefSuccess (v : JsVal) : JsVal :=
  let v1 := jsSet v "success" (.bool true)
  match jsGet v1 "message" with
  | some m => if jsTruthy m then v1 else jsSet v1 "message" (.str "操作成功")
  | none => jsSet v1 "message" (.str "操作成功")

/-- `APIClient.request` from the arrival of the response (lines 191–332):
non-success statuses raise an error built from the (tolerantly parsed) body;
204 / content-length 0 / blank bodies yield the success sentinel; a non-empty
body that fails JSON parsing raises `JSON_PARSE_ERROR`; empty objects and a
lone undefined `success` field yield the sentinel; a present-but-undefined
`success` field among other fields is overwritten with `true`. -/
def request (resp : HttpResponse) : Except APIError JsVal :=
  if statusOk resp.status = false then
    -- `response.json().catch(() => ({}))`: an unparseable error body becomes `{}`
    let errorData := resp.json.getD (.obj [])
    let errMessage :=
      match jsGetNullish errorData "message" with
      | some v => jsToString v
      | none => "HTTP " ++ toString resp.status ++ ": " ++ resp.statusText
    let errCode :=
      match jsGetNullish errorData "code" with
      | some v => jsToString v
      | none => "HTTP_ERROR"
    .error ⟨errCode, errMessage⟩
  else if resp.status = 204 ∨ resp.contentLength = some "0" then
    .ok defaultSuccessVal
  else if strTrim resp.bodyText = "" then
    .ok defaultSuccessVal
  else
    match resp.json with
    | none => .error ⟨"JSON_PARSE_ERROR", "API响应格式错误，无法解析JSON"⟩
    | some v =>
      match v with
      | .null =>
        -- `Object.keys(null)` throws before the falsiness check is reached
        .error ⟨"TYPE_ERROR", "Cannot convert undefined or null to object"⟩
      | .undef =>
        .error ⟨"TYPE_ERROR", "Cannot convert undefined or null to object"⟩
      | w =>
        let keys := jsKeys w
        let isEmpty := keys.isEmpty
        -- `keys.length === 1 && 'success' in responseData && ... === undefined`:
        -- a one-element key list whose member is "success" is the same as
        -- `keys = ["success"]` (the `in` probe is modelled on objects; no
        -- verified path reaches `in` on a primitive)
        let hasOnlyUndefinedSuccess :=
          keys == ["success"] && isUndefOpt (jsGet w "success")
        if !jsTruthy w || !jsIsObjectType w || isEmpty || hasOnlyUndefinedSuccess then
          .ok defaultSuccessVal
        else if isUndefOpt (jsGet w "success") then
          .ok (normalizeUndefSuccess w)
        else
          .ok w

/-! ## `APIClient.resetCredits` (lines 466–508)

Normalizes the envelope `{ code, msg, ok, data }` into a `ResetResponse`.
Success is decided at the envelope level: `response.ok === true` or
`response.code === 0`.
-/

structure ResetResponse where
  success : Bool
  message : String
  data : Option JsVal
  error : Option JsVal

/-- `response.ok === true`. -/
def isOkTrue (o : Option JsVal) : Bool :=
  match o with
  | some (.bool true) => true
  | _ => false

/-- `response.code === 0`. -/
def isCodeZero (o : Option JsVal) : Bool :=
  match o with
  | some (.num q) => q == 0
  | _ => false

/-- The envelope-to-`ResetResponse` normalization of `resetCredits`, applied
to the value `request` resolved with. -/
def resetCreditsNormalize (v : JsVal) : ResetResponse :=
  let apiSuccess := isOkTrue (jsGet v "ok") || isCodeZero (jsGet v "code")
  if apiSuccess then
    { success := true
      message := jsStrOr (jsGet v "msg") "重置成功"
      data := jsField v "data"
      error := none }
  else
    { success := false
      message := jsStrOr (jsGet v "msg") "重置失败"
      data := none
      error := jsChain (jsField v "data") "error" }

/-- `APIClient.resetCredits` composed with the request path. -/
def resetCredits (resp : HttpResponse) : Except APIError ResetResponse :=
  (request resp).map resetCreditsNormalize

/-! ## ResetService data model

`Subscription` mirrors the fields of the remote subscription object that
`ResetService.executeReset` reads.  `planType` and `subscriptionName` are the
two independent plan descriptors (`subscriptionPlan.planType`,
`subscriptionPlan.subscriptionName`); an absent name is modelled as `""`,
which like JavaScript `undefined?.includes(...)` never matches `"FREE"`.
Timestamps are milliseconds.
-/

inductive ResetType where
  | FIRST : ResetType
  | SECOND : ResetType
  | MANUAL : ResetType
deriving DecidableEq, Repr

structure Subscription where
  id : Nat
  subscriptionName : String
  planType : String
  isActive : Bool
  currentCredits : Rat
  resetTimes : Nat
  lastCreditReset : Option Int
deriving DecidableEq, Repr

/-- Modelled from the spec: the `isPaygoSubscription` type guard of the
missing `@/types` module — plan category is `PAY_PER_USE` (spec §3, §4.2b;
matches the inline `planType === 'PAY_PER_USE'` checks in
`service-worker.ts`). -/
def isPaygoSubscription (s : Subscription) : Bool :=
  s.planType == "PAY_PER_USE"

/-- Modelled from the spec: the `isMonthlySubscription` type guard of the
missing `@/types` module — plan category is `MONTHLY` (spec §4.2e; matches
the inline `planType === 'MONTHLY'` checks in `service-worker.ts`). -/
def isMonthlySubscription (s : Subscription) : Bool :=
  s.planType == "MONTHLY"

/-- Modelled from the spec: the `isActiveSubscription` type guard of the
missing `@/types` module — the subscription's active flag (spec §4.2e). -/
def isActiveSubscription (s : Subscription) : Bool :=
  s.isActive

inductive SubStatus where
  | SUCCESS : SubStatus
  | FAILED : SubStatus
  | SKIPPED : SubStatus
deriving DecidableEq, Repr

inductive ResetStatus where
  | SUCCESS : ResetStatus
  | PARTIAL : ResetStatus
  | FAILED : ResetStatus
  | SKIPPED : ResetStatus
deriving DecidableEq, Repr

/-- One entry of `ResetResult.subscriptions` (the per-call `duration` field,
a wall-clock measurement, is omitted). -/
structure SubscriptionResetResult where
  subscriptionId : String
  plan : String
  status : SubStatus
  message : String
  usageBefore : Option Rat := none
  usageAfter : Option Rat := none
deriving DecidableEq, Repr

/-- `ResetResult` without the account identity and wall-clock fields
(`accountId`, `accountName`, `startTime`, `endTime`, `totalDuration`). -/
structure ResetResult where
  status : ResetStatus
  subscriptions : List SubscriptionResetResult
  successCount : Nat
  failedCount : Nat
  skippedCount : Nat
  summary : String
deriving DecidableEq, Repr

/-! ## The eligibility filter (`ResetService.executeReset` lines 77–190) -/

/-- 5 hours in milliseconds (`cooldownPeriod`, line 103). -/
def cooldownPeriodMs : Int := 5 * 60 * 60 * 1000

/-- Cooldown skip message (line 119); `fmt` stands for the
`toLocaleString('zh-CN', ...)` rendering of the next-available timestamp,
an environmental locale/timezone formatter. -/
def cooldownSkipMsg (fmt : Int → String) (lastResetTime now : Int) : String :=
  let remainingMs := cooldownPeriodMs - (now - lastResetTime)
  let remainingHours := Int.ediv remainingMs (60 * 60 * 1000)
  let remainingMinutes := Int.ediv (Int.emod remainingMs (60 * 60 * 1000)) (60 * 1000)
  let nextAvailableTime := lastResetTime + cooldownPeriodMs
  "还需等待 " ++ (toString remainingHours ++ ("小时" ++ (toString remainingMinutes
    ++ ("分钟，" ++ (fmt nextAvailableTime ++ " 后可刷新")))))

/-- PAYGO skip message (line 86). -/
def paygoSkipMsg (sub : Subscription) : String :=
  "PAYGO 订阅受保护，已跳过 (ID: " ++ (toString sub.id ++ (", Plan: " ++ (sub.planType ++ ")")))

/-- FIRST-reset count skip message (line 134). -/
def firstCountSkipMsg (sub : Subscription) : String :=
  "首次重置需要>=2次，当前剩余: " ++ (toString sub.resetTimes ++ (" (Plan: "
    ++ (sub.planType ++ (", ID: " ++ (toString sub.id ++ ")")))))

/-- SECOND-reset count skip message (line 147). -/
def secondCountSkipMsg (sub : Subscription) : String :=
  "二次重置需要>=1次，当前剩余: " ++ (toString sub.resetTimes ++ (" (Plan: "
    ++ (sub.planType ++ (", ID: " ++ (toString sub.id ++ ")")))))

/-- MANUAL exhausted-count skip message (line 161). -/
def manualCountSkipMsg (sub : Subscription) : String :=
  "剩余重置次数已用完 (0/2) (Plan: " ++ (sub.planType ++ (", ID: "
    ++ (toString sub.id ++ ")")))

/-- Not-an-active-MONTHLY skip message (line 180). -/
def notEligibleSkipMsg (sub : Subscription) : String :=
  "订阅不符合条件 (Plan: " ++ (sub.planType ++ (", Active: " ++ (toString sub.isActive
    ++ (", ResetTimes: " ++ (toString sub.resetTimes ++ (", ID: "
    ++ (toString sub.id ++ ")")))))))

/-- Outcome of the filter callback for one subscription. -/
inductive FilterDecision where
  /-- `return true`: the subscription enters the eligible set. -/
  | keep : FilterDecision
  /-- `return false` with no record pushed (the FREE branch, lines 79–82). -/
  | dropSilent : FilterDecision
  /-- `return false` after pushing a SKIPPED record with this message. -/
  | skip : String → FilterDecision
deriving DecidableEq

/-- The reset-type-count and active-MONTHLY checks (lines 132–190), reached
once the plan-name, PAYGO, and cooldown checks have passed. -/
def countAndPlanCheck (resetType : Option ResetType) (sub : Subscription) : FilterDecision :=
  if resetType = some .FIRST ∧ sub.resetTimes < 2 then
    .skip (firstCountSkipMsg sub)
  else if resetType = some .SECOND ∧ sub.resetTimes < 1 then
    .skip (secondCountSkipMsg sub)
  else if resetType = some .MANUAL ∧ sub.resetTimes = 0 then
    .skip (manualCountSkipMsg sub)
  else if isMonthlySubscription sub ∧ isActiveSubscription sub then
    .keep
  else
    .skip (notEligibleSkipMsg sub)

/-- The full ordered filter for one subscription (the callback of
`subscriptions.filter`, lines 77–190).  `manual` is the `manual` parameter of
`executeReset` (the cooldown check is gated on it, not on
`resetType = MANUAL`); `now` is `Date.now()`. -/
def filterDecision (manual : Bool) (resetType : Option ResetType) (now : Int)
    (fmt : Int → String) (sub : Subscription) : FilterDecision :=
  if strIncludes (strToUpper sub.subscriptionName) "FREE" then
    .dropSilent
  else if isPaygoSubscription sub then
    .skip (paygoSkipMsg sub)
  else
    match sub.lastCreditReset with
    | some lastResetTime =>
      if manual ∧ now - lastResetTime < cooldownPeriodMs then
        .skip (cooldownSkipMsg fmt lastResetTime now)
      else
        countAndPlanCheck resetType sub
    | none => countAndPlanCheck resetType sub

/-- Accumulated effect of the filter pass: the eligible subscriptions (in
order), the SKIPPED records pushed onto `result.subscriptions`, and the
`skippedCount` increments. -/
structure FilterOut where
  eligible : List Subscription
  records : List SubscriptionResetResult
  skippedCount : Nat
deriving DecidableEq, Repr

/-- The SKIPPED record pushed for an excluded subscription. -/
def skipRecord (sub : Subscription) (msg : String) : SubscriptionResetResult :=
  { subscriptionId := toString sub.id, plan := sub.planType,
    status := .SKIPPED, message := msg }

/-- The filter pass over the subscription list, left to right. -/
def runFilter (manual : Bool) (resetType : Option ResetType) (now : Int)
    (fmt : Int → String) : List Subscription → FilterOut
  | [] => { eligible := [], records := [], skippedCount := 0 }
  | sub :: rest =>
    let r := runFilter manual resetType now fmt rest
    match filterDecision manual resetType now fmt sub with
    | .keep => { r with eligible := sub :: r.eligible }
    | .dropSilent => r
    | .skip m =>
      { r with records := skipRecord sub m :: r.records,
               skippedCount := r.skippedCount + 1 }

/-! ## `resetSingleSubscription` (lines 297–404) and the concurrent run -/

/-- `Number.prototype.toFixed(2)` on the rational number model: rounding to
two decimal places, half away from zero. -/
def toFixed2 (q : Rat) : String :=
  let n : Int := round (|q| * 100)
  let frac : Int := Int.emod n 100
  let fracStr := if frac < 10 then "0" ++ toString frac else toString frac
  (if q < 0 then "-" else "") ++ toString (Int.ediv n 100) ++ "." ++ fracStr

/-- The `toFixed(2)` rendering the success message applies to the (dynamic)
`newCredits` value; only a numeric value occurs on live paths. -/
def toFixed2Js (v : JsVal) : String :=
  match v with
  | .num q => toFixed2 q
  | other => jsToString other

/-- `response.error.message || '重置失败'` (line 352). -/
def errMsgOf (e : JsVal) : String :=
  jsStrOr (jsGet e "message") "重置失败"

/-- How the remote call behind one eligible subscription settles:
`resetCredits` resolves with a response, the API client throws (caught by
`resetSingleSubscription`'s own catch), or the whole promise rejects
(handled by the `Promise.allSettled` branch of the caller). -/
inductive RemoteOutcome where
  | resp : ResetResponse → RemoteOutcome
  | thrown : String → RemoteOutcome
  | rejected : String → RemoteOutcome

/-- `resetSingleSubscription` (lines 297–404) given the resolved
`apiClient.resetCredits` response.  Every record it builds carries the
literal plan tag `'MONTHLY'`. -/
def resetSingleSubscription (subscriptionId : String) (usageBefore : Rat)
    (response : ResetResponse) : SubscriptionResetResult :=
  if response.success = false then
    { subscriptionId := subscriptionId, plan := "MONTHLY", status := .FAILED,
      message := strOr response.message "重置失败", usageBefore := some usageBefore }
  else
    match response.error with
    | some e =>
      if jsTruthy e then
        { subscriptionId := subscriptionId, plan := "MONTHLY", status := .FAILED,
          message := errMsgOf e, usageBefore := some usageBefore }
      else
        resetSingleSuccess subscriptionId usageBefore response
    | none => resetSingleSuccess subscriptionId usageBefore response
where
  /-- The success tail of `resetSingleSubscription` (lines 358–386). -/
  resetSingleSuccess (subscriptionId : String) (usageBefore : Rat)
      (response : ResetResponse) : SubscriptionResetResult :=
    let newCredits := jsChain response.data "newCredits"
    let resetAt := jsChain response.data "resetAt"
    let message :=
      match newCredits with
      | some v =>
        "成功重置（" ++ (toFixed2 usageBefore ++ (" → " ++ (toFixed2Js v
          ++ (" Credits" ++ ((match resetAt with
              | some r => if jsTruthy r then "，重置时间：" ++ jsToString r else ""
              | none => "") ++ "）")))))
      | none => "成功重置（服务器未返回详细数据）"
    { subscriptionId := subscriptionId, plan := "MONTHLY", status := .SUCCESS,
      message := message, usageBefore := some usageBefore,
      usageAfter := some (match newCredits with
        | some (.num q) => q
        | _ => usageBefore) }

/-- The catch branch of `resetSingleSubscription` (lines 387–403). -/
def resetSingleCatch (subscriptionId : String) (usageBefore : Rat)
    (errorMsg : String) : SubscriptionResetResult :=
  { subscriptionId := subscriptionId, plan := "MONTHLY", status := .FAILED,
    message := errorMsg, usageBefore := some usageBefore }

/-- The settled record for one eligible subscription as the aggregation loop
(lines 228–252) sees it: a fulfilled promise carries the
`resetSingleSubscription` record; a rejected one is turned into a FAILED
record tagged with the subscription's own plan type. -/
def settledRecord (remote : Subscription → RemoteOutcome) (sub : Subscription) :
    SubscriptionResetResult :=
  match remote sub with
  | .resp r => resetSingleSubscription (toString sub.id) sub.currentCredits r
  | .thrown m => resetSingleCatch (toString sub.id) sub.currentCredits m
  | .rejected m =>
    { subscriptionId := toString sub.id, plan := sub.planType,
      status := .FAILED, message := m }

/-- The aggregation loop over the settled results, in launch order: pushed
records, `successCount`, `failedCount`. -/
def runResets (remote : Subscription → RemoteOutcome) :
    List Subscription → List SubscriptionResetResult × Nat × Nat
  | [] => ([], 0, 0)
  | sub :: rest =>
    (settledRecord remote sub :: (runResets remote rest).1,
     (if (settledRecord remote sub).status = .SUCCESS then
        (runResets remote rest).2.1 + 1
      else (runResets remote rest).2.1),
     (if (settledRecord remote sub).status = .SUCCESS then
        (runResets remote rest).2.2
      else (runResets remote rest).2.2 + 1))

/-- The SKIPPED summary chosen when nothing survives the filter
(lines 192–212): priority cooldown > PAYGO > exhausted count > generic,
recognized by substring probes on the recorded skip messages. -/
def skippedSummary (records : List SubscriptionResetResult) : String :=
  match records.filter (fun r => strIncludes r.message "还需等待") with
  | r :: _ => strOr r.message "冷却中，请等待5小时后再试"
  | [] =>
    if records.filter (fun r => strIncludes r.message "PAYGO") ≠ [] then
      "所有订阅均为PAYGO类型，无需重置"
    else if records.filter (fun r => strIncludes r.message "重置次数") ≠ [] then
      "今日重置次数已用完（0/2）"
    else
      "没有符合重置条件的 MONTHLY 订阅"

/-- `ResetService.executeReset` (lines 38–292) for one account.  `listing` is
the result of `apiClient.getSubscriptions` (`.error` models the call
throwing, handled by the top-level catch); `remote` gives how each eligible
subscription's reset settles; `fmt` renders timestamps for the cooldown
message. -/
def executeReset (manual : Bool) (resetType : Option ResetType) (now : Int)
    (fmt : Int → String) (remote : Subscription → RemoteOutcome)
    (listing : Except String (List Subscription)) : ResetResult :=
  match listing with
  | .error e =>
    { status := .FAILED, subscriptions := [], successCount := 0,
      failedCount := 0, skippedCount := 0, summary := e }
  | .ok subscriptions =>
    if subscriptions = [] then
      { status := .SKIPPED, subscriptions := [], successCount := 0,
        failedCount := 0, skippedCount := 0, summary := "没有找到任何订阅" }
    else
      let fo := runFilter manual resetType now fmt subscriptions
      if fo.eligible = [] then
        { status := .SKIPPED, subscriptions := fo.records, successCount := 0,
          failedCount := 0, skippedCount := fo.skippedCount,
          summary := skippedSummary fo.records }
      else
        let succ := (runResets remote fo.eligible).2.1
        let fail := (runResets remote fo.eligible).2.2
        { status :=
            if fail = 0 then .SUCCESS
            else if 0 < succ then .PARTIAL
            else .FAILED
          subscriptions := fo.records ++ (runResets remote fo.eligible).1
          successCount := succ
          failedCount := fail
          skippedCount := fo.skippedCount
          summary :=
            if fail = 0 then "成功重置 " ++ toString succ ++ " 个订阅"
            else if 0 < succ then
              "部分成功：" ++ toString succ ++ " 成功，" ++ toString fail ++ " 失败"
            else "重置失败：所有订阅均失败" }

/-! ## Scheduler daily dedupe (`Scheduler.executeScheduledReset`, part_001
lines 153–306)

The persisted `ExecutionDayState` is the only state the transition touches.
`today` stands for `getTodayDateString(config.timezone)`, `withinWindow` for
the ±3 minute `isWithinTimeWindow` verdict, and `runs` for the settled
per-account `executeReset` results (one entry per enabled account, in launch
order).  Early returns leave the persisted state untouched: the local
date-rollover copy is only persisted through `markResetExecuted`.
-/

structure ExecutionState where
  lastExecutionDate : String
  firstResetToday : Bool
  secondResetToday : Bool
deriving DecidableEq, Repr

/-- Modelled from the spec: `StorageService.markResetExecuted` of the missing
storage module — records that the scheduled slot for the given reset-type was
consumed today (spec §4.3: "mark the dedupe flag for that reset-type/day as
executed regardless of outcome"). -/
def markResetExecuted (isFirstReset : Bool) (today : String)
    (st : ExecutionState) : ExecutionState :=
  if isFirstReset then
    { st with firstResetToday := true, lastExecutionDate := today }
  else
    { st with secondResetToday := true, lastExecutionDate := today }

/-- One enabled account's settled run as the statistics loop (lines 229–254)
sees it. -/
inductive AccountRun where
  | fulfilled : ResetStatus → String → AccountRun
  | rejected : String → AccountRun

/-- The statistics loop (lines 222–254): success/failed/skipped counts and
the collected failure/skip reasons, in order. -/
def tallyRuns : List AccountRun → Nat × Nat × Nat × List String
  | [] => (0, 0, 0, [])
  | run :: rest =>
    let (s, f, k, reasons) := tallyRuns rest
    match run with
    | .fulfilled .SUCCESS _ => (s + 1, f, k, reasons)
    | .fulfilled .SKIPPED summary =>
      (s, f, k + 1, (if summary ≠ "" then summary :: reasons else reasons))
    | .fulfilled _ summary =>
      (s, f + 1, k, (if summary ≠ "" then summary :: reasons else reasons))
    | .rejected msg => (s, f + 1, k, ("执行异常: " ++ msg) :: reasons)

/-- The notification message (lines 259–282). -/
def notificationMessage (label : String) (s f k : Nat) (reasons : List String) : String :=
  if 0 < s ∧ f = 0 ∧ k = 0 then
    label ++ "重置成功：" ++ toString s ++ " 个账号已重置"
  else if 0 < k ∧ s = 0 ∧ f = 0 then
    label ++ "重置跳过：" ++ (reasons.head?.getD "所有订阅均已跳过")
  else if 0 < f ∨ 0 < k then
    let parts := (if 0 < s then [toString s ++ "成功"] else [])
      ++ (if 0 < k then [toString k ++ "跳过"] else [])
      ++ (if 0 < f then [toString f ++ "失败"] else [])
    label ++ "重置完成：" ++ String.intercalate "，" parts
      ++ (match reasons.head? with
          | some r => "\n原因：" ++ r
          | none => "")
  else
    label ++ "重置完成"

/-- The date-rollover step (lines 186–191): when the observed date changed,
both flags reset on the local copy of the state. -/
def rollover (today : String) (st : ExecutionState) : ExecutionState :=
  if st.lastExecutionDate ≠ today then
    { lastExecutionDate := today, firstResetToday := false,
      secondResetToday := false }
  else st

/-- The notification built from the tallied per-account results
(lines 259–282 with the `label` of line 154). -/
def scheduledNotification (isFirstReset : Bool) (runs : List AccountRun) : String :=
  notificationMessage (if isFirstReset then "首次" else "二次")
    (tallyRuns runs).1 (tallyRuns runs).2.1 (tallyRuns runs).2.2.1
    (tallyRuns runs).2.2.2

/-- `Scheduler.executeScheduledReset`: the transition on the persisted
`ExecutionState`, whether the per-account resets actually ran, and the
notification message produced (when a run happened).  `runs` has one entry
per enabled account, so `runs = []` is the no-enabled-accounts early return.
Early returns leave the persisted state untouched; the rolled-over local
copy is only persisted through `markResetExecuted`. -/
def executeScheduledReset (isFirstReset : Bool) (withinWindow : Bool)
    (today : String) (runs : List AccountRun) (st : ExecutionState) :
    ExecutionState × Bool × Option String :=
  if withinWindow = false then (st, false, none)
  else if isFirstReset ∧ (rollover today st).firstResetToday then (st, false, none)
  else if ¬isFirstReset ∧ (rollover today st).secondResetToday then (st, false, none)
  else if runs.length = 0 then (st, false, none)
  else
    (markResetExecuted isFirstReset today (rollover today st), true,
     some (scheduledNotification isFirstReset runs))

/-! ## `GET_STATUS` next-reset computation (`service-worker.ts` lines 277–313)

`firstReset`/`secondReset` are the two alarm timestamps
(`scheduler.getNextScheduledTime()`, `null` when an alarm is absent);
`resetTimes` is the primary subscription's remaining reset count.
-/

inductive NextResetType where
  | first : NextResetType
  | second : NextResetType
deriving DecidableEq, Repr

/-- JavaScript truthiness of a nullable timestamp (`null` and `0` are
falsy). -/
def truthyTime (o : Option Int) : Bool :=
  match o with
  | none => false
  | some t => t != 0

/-- The `nextScheduledReset` / `nextResetType` computation of the
`GET_STATUS` handler. -/
def getStatusNextReset (now : Int) (firstReset secondReset : Option Int)
    (resetTimes : Nat) : Option Int × Option NextResetType :=
  match firstReset, secondReset with
  | some f, some s =>
    if f ≠ 0 ∧ s ≠ 0 then
      let firstDiff := f - now
      let secondDiff := s - now
      if 2 ≤ resetTimes then
        if 0 < firstDiff ∧ 0 < secondDiff then
          if firstDiff < secondDiff then (some f, some .first)
          else (some s, some .second)
        else if 0 < firstDiff then (some f, some .first)
        else if 0 < secondDiff then (some s, some .second)
        else (none, none)
      else if 1 ≤ resetTimes then
        if 0 < secondDiff then (some s, some .second) else (none, none)
      else (none, none)
    else
      getStatusFallback firstReset secondReset
  | _, _ => getStatusFallback firstReset secondReset
where
  /-- The `else` branch (lines 309–313): `firstReset ?? secondReset`, with the
  type chosen by truthiness of `firstReset`. -/
  getStatusFallback (firstReset secondReset : Option Int) :
      Option Int × Option NextResetType :=
    ((match firstReset with
      | some f => some f
      | none => secondReset),
     some (if truthyTime firstReset then .first else .second))

/-! ## Theorems -/

/-! ### C2 — token-bucket bounds -/

theorem TokenBucket.refill_capacity (b : TokenBucket) (now : Rat) :
    (TokenBucket.refill b now).capacity = b.capacity := by
  simp only [TokenBucket.refill]
  split <;> rfl

theorem TokenBucket.refill_bounds (b : TokenBucket) (now : Rat)
    (hcap : -1 < b.capacity) (h1 : -1 < b.tokens) (h2 : b.tokens ≤ b.capacity) :
    -1 < (TokenBucket.refill b now).tokens
      ∧ (TokenBucket.refill b now).tokens ≤ b.capacity := by
  simp only [TokenBucket.refill]
  split
  · next h =>
    refine ⟨lt_min hcap (by linarith), min_le_left _ _⟩
  · exact ⟨h1, h2⟩

theorem TokenBucket.consume_bounds (b : TokenBucket) (now : Rat)
    (hcap : -1 < b.capacity) (h1 : -1 < b.tokens) (h2 : b.tokens ≤ b.capacity) :
    -1 < (TokenBucket.consume b now).2.tokens
      ∧ (TokenBucket.consume b now).2.tokens ≤ (TokenBucket.consume b now).2.capacity
      ∧ (TokenBucket.consume b now).2.capacity = b.capacity := by
  have hb := TokenBucket.refill_bounds b now hcap h1 h2
  have hc := TokenBucket.refill_capacity b now
  simp only [TokenBucket.consume]
  split
  · next h =>
    dsimp only
    exact ⟨by linarith [hb.1], by rw [hc]; linarith [hb.2], hc⟩
  · next h =>
    exact ⟨hb.1, by rw [hc]; exact hb.2, hc⟩

theorem TokenBucket.consumeTrace_bounds (trace : List Rat) (b : TokenBucket)
    (hcap : -1 < b.capacity) (h1 : -1 < b.tokens) (h2 : b.tokens ≤ b.capacity) :
    -1 < (TokenBucket.consumeTrace b trace).tokens
      ∧ (TokenBucket.consumeTrace b trace).tokens
          ≤ (TokenBucket.consumeTrace b trace).capacity
      ∧ (TokenBucket.consumeTrace b trace).capacity = b.capacity := by
  induction trace generalizing b with
  | nil => exact ⟨h1, h2, rfl⟩
  | cons t ts ih =>
    have hs := TokenBucket.consume_bounds b t hcap h1 h2
    have hrec := ih (TokenBucket.consume b t).2 (hs.2.2 ▸ hcap) hs.1
      (hs.2.2 ▸ hs.2.1)
    simp only [TokenBucket.consumeTrace]
    exact ⟨hrec.1, hrec.2.1, by rw [hrec.2.2, hs.2.2]⟩

/-- The bucket reached after thirty immediate `consume()` calls on the
client's fresh bucket: all thirty integer tokens are spent. -/
def drainedBucket : TokenBucket :=
  TokenBucket.consumeTrace (TokenBucket.std 0) (List.replicate 30 0)

/-- C2 counterexample: from the initial state of the client's bucket
(capacity 30, refill 20 per 60 s), thirty `consume()` calls at time 0 and one
at time 1500 ms are a reachable call sequence after which the bucket holds
0.5 tokens — fewer than 1 — yet `consume()` returns `true` and drives the
token count below zero, refuting both the `[0, capacity]` lower bound and the
"returns false when fewer than 1 token is available" behavior. -/
theorem tokenBucket_claim_counterexample :
    (TokenBucket.refill drainedBucket 1500).tokens = 1 / 2
      ∧ (1 : Rat) / 2 < 1
      ∧ (TokenBucket.consume drainedBucket 1500).1 = true
      ∧ (TokenBucket.consume drainedBucket 1500).2.tokens < 0
      ∧ (TokenBucket.consumeTrace (TokenBucket.std 0)
          (List.replicate 30 0 ++ [1500])).tokens < 0 := by
  norm_num [drainedBucket, TokenBucket.std, TokenBucket.init,
    TokenBucket.consumeTrace, TokenBucket.consume, TokenBucket.refill,
    List.replicate]

/-- C2 (amended): for every sequence of `consume()` calls at arbitrary times
on the client's bucket, the token count stays in the interval (-1, 30]: it
can dip below zero (by strictly less than one token) because `consume()`
spends a whole token whenever the balance is merely positive, and refill
never raises it above the capacity; `consume()` returns `true` exactly when
the refilled balance is positive, and a `false` return leaves the bucket
exactly as the refill left it (nothing is consumed). -/
theorem tokenBucket_bounds (t0 now : Rat) (trace : List Rat) (b : TokenBucket) :
    (-1 < (TokenBucket.consumeTrace (TokenBucket.std t0) trace).tokens
        ∧ (TokenBucket.consumeTrace (TokenBucket.std t0) trace).tokens ≤ 30)
      ∧ ((TokenBucket.consume b now).1 = true ↔ 0 < (TokenBucket.refill b now).tokens)
      ∧ ((TokenBucket.consume b now).1 = false →
          (TokenBucket.consume b now).2 = TokenBucket.refill b now) := by
  refine ⟨?_, ?_, ?_⟩
  · have h := TokenBucket.consumeTrace_bounds trace (TokenBucket.std t0)
      (by norm_num [TokenBucket.std, TokenBucket.init])
      (by norm_num [TokenBucket.std, TokenBucket.init])
      (by norm_num [TokenBucket.std, TokenBucket.init])
    have hcap : (TokenBucket.consumeTrace (TokenBucket.std t0) trace).capacity = 30 :=
      h.2.2
    exact ⟨h.1, by rw [← hcap]; exact h.2.1⟩
  · simp only [TokenBucket.consume]
    split
    · next h => simpa using h
    · next h => simpa using h
  · simp only [TokenBucket.consume]
    split
    · next h => simp
    · next h => simp

/-- A bucket of the client's configuration whose tokens are exhausted, with
no time elapsed since the last refill. -/
def exhaustedBucket : TokenBucket :=
  { capacity := 30, refillRate := 20, refillInterval := 60000,
    tokens := 0, lastRefill := 0 }

/-- Witness for `tokenBucket_bounds` at a concrete trace and a concrete
refusing `consume()` call. -/
theorem tokenBucket_bounds_witness :
    ((TokenBucket.consume exhaustedBucket 0).1 = false)
      ∧ (-1 < (TokenBucket.consumeTrace (TokenBucket.std 0) [0, 1500]).tokens
          ∧ (TokenBucket.consumeTrace (TokenBucket.std 0) [0, 1500]).tokens ≤ 30)
      ∧ (TokenBucket.consume exhaustedBucket 0).2
          = TokenBucket.refill exhaustedBucket 0 :=
  ⟨by simp [TokenBucket.consume, TokenBucket.refill, exhaustedBucket],
   (tokenBucket_bounds 0 0 [0, 1500] exhaustedBucket).1,
   (tokenBucket_bounds 0 0 [0, 1500] exhaustedBucket).2.2
     (by simp [TokenBucket.consume, TokenBucket.refill, exhaustedBucket])⟩

/-! ### C3 — empty and non-JSON bodies on successful statuses -/

/-- A successful (HTTP 200) response whose non-empty body is not valid
JSON. -/
def nonJsonOkResponse : HttpResponse :=
  { status := 200, statusText := "OK", contentLength := none,
    bodyText := "not json", json := none }

/-- C3 counterexample: on a successful status with a non-empty body that is
not valid JSON, `request` raises `JSON_PARSE_ERROR` instead of returning the
implicit success sentinel. -/
theorem request_nonJson_counterexample :
    statusOk nonJsonOkResponse.status = true
      ∧ nonJsonOkResponse.bodyText ≠ ""
      ∧ nonJsonOkResponse.json = none
      ∧ request nonJsonOkResponse
          = .error ⟨"JSON_PARSE_ERROR", "API响应格式错误，无法解析JSON"⟩
      ∧ request nonJsonOkResponse ≠ .ok defaultSuccessVal := by
  have h4 : request nonJsonOkResponse
      = .error ⟨"JSON_PARSE_ERROR", "API响应格式错误，无法解析JSON"⟩ := rfl
  refine ⟨rfl, by decide, rfl, h4, fun h => ?_⟩
  rw [h4] at h
  exact Except.noConfusion h

/-- C3 (amended): on a successful status, an empty body — a 204, a
`content-length: 0` header, or whitespace-only text — yields the implicit
success sentinel `{ success: true, message: '操作成功' }`; a non-empty body
that is not valid JSON instead raises a `JSON_PARSE_ERROR`. -/
theorem request_emptyBody_sentinel (resp : HttpResponse)
    (hok : statusOk resp.status = true) :
    ((resp.status = 204 ∨ resp.contentLength = some "0"
        ∨ strTrim resp.bodyText = "") →
      request resp = .ok defaultSuccessVal)
    ∧ ((resp.status ≠ 204 ∧ resp.contentLength ≠ some "0"
        ∧ strTrim resp.bodyText ≠ "" ∧ resp.json = none) →
      request resp = .error ⟨"JSON_PARSE_ERROR", "API响应格式错误，无法解析JSON"⟩) := by
  constructor
  · rintro (h | h | h) <;> (simp [request, hok, h, ite_self]; try decide)
  · rintro ⟨h1, h2, h3, h4⟩
    simp [request, hok, h1, h2, h3, h4]

/-- A 204 No Content response. -/
def noContentResponse : HttpResponse :=
  { status := 204, statusText := "No Content", contentLength := none,
    bodyText := "", json := none }

/-- Witness for `request_emptyBody_sentinel` at a concrete 204 response. -/
theorem request_emptyBody_sentinel_witness :
    statusOk noContentResponse.status = true
      ∧ request noContentResponse = .ok defaultSuccessVal :=
  ⟨rfl, (request_emptyBody_sentinel noContentResponse rfl).1 (Or.inl rfl)⟩

/-! ### C8 — reset success is decided at the envelope level -/

theorem isOkTrue_iff (o : Option JsVal) :
    isOkTrue o = true ↔ o = some (.bool true) := by
  rcases o with _ | v
  · simp [isOkTrue]
  · rcases v with _ | _ | b | q | s | fs <;> simp [isOkTrue]
    cases b <;> simp

theorem isCodeZero_iff (o : Option JsVal) :
    isCodeZero o = true ↔ o = some (.num 0) := by
  rcases o with _ | v
  · simp [isCodeZero]
  · rcases v with _ | _ | b | q | s | fs <;> simp [isCodeZero]

/-- C8: for every envelope value the request path resolves with — including
the sentinel from the empty-body normalization, which carries neither an `ok`
nor a `code` field — `resetCredits` reports success exactly when the envelope
has `ok === true` or `code === 0` (never consulting any nested
`data.success`), and otherwise reports failure carrying the envelope's `msg`
(defaulted to `'重置失败'`). -/
theorem resetCredits_envelope_success (resp : HttpResponse) (v : JsVal)
    (h : request resp = .ok v) :
    ((resetCreditsNormalize v).success = true
        ↔ (jsGet v "ok" = some (.bool true) ∨ jsGet v "code" = some (.num 0)))
      ∧ ((resetCreditsNormalize v).success = false →
          (resetCreditsNormalize v).message = jsStrOr (jsGet v "msg") "重置失败")
      ∧ resetCredits resp = .ok (resetCreditsNormalize v) := by
  refine ⟨?_, ?_, ?_⟩
  · simp only [resetCreditsNormalize]
    split
    · next hc =>
      simp only [Bool.or_eq_true, isOkTrue_iff, isCodeZero_iff] at hc
      simpa using hc
    · next hc =>
      simp only [Bool.or_eq_true, isOkTrue_iff, isCodeZero_iff] at hc
      simpa using hc
  · simp only [resetCreditsNormalize]
    split
    · next hc => intro hfalse; exact absurd hfalse (by simp)
    · next hc => intro _; rfl
  · simp [resetCredits, h, Except.map]

/-- Witness for `resetCredits_envelope_success`: the empty-body sentinel
itself (reached through a concrete 204 response) has neither `ok` nor `code`,
so the reset is reported as failed with the default message. -/
theorem resetCredits_envelope_success_witness :
    ((resetCreditsNormalize defaultSuccessVal).success = true
        ↔ (jsGet defaultSuccessVal "ok" = some (.bool true)
            ∨ jsGet defaultSuccessVal "code" = some (.num 0)))
      ∧ ((resetCreditsNormalize defaultSuccessVal).success = false →
          (resetCreditsNormalize defaultSuccessVal).message
            = jsStrOr (jsGet defaultSuccessVal "msg") "重置失败")
      ∧ resetCredits noContentResponse
          = .ok (resetCreditsNormalize defaultSuccessVal) :=
  resetCredits_envelope_success noContentResponse defaultSuccessVal rfl

/-! ### C9 — next-reset window selection in `GET_STATUS` -/

/-- C9: with both trigger timestamps known (non-null, non-zero): a remaining
count of at least 2 reports the sooner of the two future windows together
with its type; a count of exactly 1 reports only the second window (when it
is still in the future, otherwise nothing); a count of 0 reports nothing. -/
theorem getStatus_nextReset_windows (now f s : Int) (resetTimes : Nat)
    (hf : f ≠ 0) (hs : s ≠ 0) :
    ((2 ≤ resetTimes → now < f → now < s →
        getStatusNextReset now (some f) (some s) resetTimes
          = (some (min f s), some (if f < s then .first else .second))))
      ∧ (resetTimes = 1 →
          getStatusNextReset now (some f) (some s) resetTimes
            = if now < s then (some s, some .second) else (none, none))
      ∧ (resetTimes = 0 →
          getStatusNextReset now (some f) (some s) resetTimes = (none, none)) := by
  refine ⟨?_, ?_, ?_⟩
  · intro h2 hnf hns
    simp only [getStatusNextReset, if_pos (And.intro hf hs), if_pos h2]
    rw [if_pos (And.intro (by omega : (0:Int) < f - now) (by omega : (0:Int) < s - now))]
    rcases lt_trichotomy f s with hlt | heq | hgt
    · rw [if_pos (by omega : f - now < s - now), if_pos hlt, min_eq_left hlt.le]
    · rw [if_neg (by omega : ¬(f - now < s - now)), if_neg (by omega : ¬(f < s)),
        heq, min_self]
    · rw [if_neg (by omega : ¬(f - now < s - now)), if_neg (by omega : ¬(f < s)),
        min_eq_right hgt.le]
  · intro h1
    subst h1
    simp only [getStatusNextReset, if_pos (And.intro hf hs)]
    rw [if_neg (by omega : ¬(2 ≤ 1)), if_pos (by omega : 1 ≤ 1)]
    split
    · next h => rw [if_pos (by omega : now < s)]
    · next h => rw [if_neg (by omega : ¬ now < s)]
  · intro h0
    subst h0
    simp only [getStatusNextReset, if_pos (And.intro hf hs)]
    rw [if_neg (by omega : ¬(2 ≤ 0)), if_neg (by omega : ¬(1 ≤ 0))]

/-- Witness for `getStatus_nextReset_windows` at concrete timestamps: with
2 resets left the sooner (first) window is reported. -/
theorem getStatus_nextReset_windows_witness :
    getStatusNextReset 0 (some 100) (some 200) 2
      = (some (min (100:Int) 200), some (if (100:Int) < 200 then .first else .second)) :=
  (getStatus_nextReset_windows 0 100 200 2 (by decide) (by decide)).1
    (by decide) (by decide) (by decide)

/-! ### C5 — per-day dedupe of the scheduled triggers -/

theorem executeScheduledReset_ran_eq (isFirstReset : Bool) (today : String)
    (runs : List AccountRun) (st : ExecutionState)
    (h : (executeScheduledReset isFirstReset true today runs st).2.1 = true) :
    (executeScheduledReset isFirstReset true today runs st).1
      = markResetExecuted isFirstReset today (rollover today st) := by
  unfold executeScheduledReset at h ⊢
  rw [if_neg (by simp)] at h ⊢
  split at h
  · simp at h
  · split at h
    · simp at h
    · split at h
      · simp at h
      · rename_i h1 h2 h3
        rw [if_neg h1, if_neg h2, if_neg h3]

theorem executeScheduledReset_after_mark_same_day (isFirstReset : Bool)
    (today : String) (runs : List AccountRun) (stBase : ExecutionState) :
    (executeScheduledReset isFirstReset true today runs
      (markResetExecuted isFirstReset today stBase)).2.1 = false := by
  cases isFirstReset <;>
    simp [executeScheduledReset, markResetExecuted, rollover]

theorem executeScheduledReset_after_mark_next_day (isFirstReset : Bool)
    (today nextDay : String) (runs : List AccountRun) (stBase : ExecutionState)
    (hday : ¬ today = nextDay) (hruns : runs ≠ []) :
    (executeScheduledReset isFirstReset true nextDay runs
      (markResetExecuted isFirstReset today stBase)).2.1 = true := by
  cases isFirstReset <;>
    simp [executeScheduledReset, markResetExecuted, rollover, hday, hruns]

/-- C5: within one calendar day (in the configured timezone), an in-window
scheduled trigger of either reset-type executes the per-account resets at
most once: a firing that reaches the execution step persists the dedupe flag
for its reset-type and the day — regardless of the per-account outcomes,
which are universally quantified here — so a second same-day firing is
skipped, and after the observed date changes the trigger executes again
(given at least one enabled account). -/
theorem scheduledReset_dedupe (isFirstReset : Bool) (today nextDay : String)
    (runs runs2 nextRuns : List AccountRun) (st : ExecutionState)
    (hruns : nextRuns ≠ []) (hday : nextDay ≠ today) :
    ((executeScheduledReset isFirstReset true today runs st).2.1 = true →
        (executeScheduledReset isFirstReset true today runs2
          (executeScheduledReset isFirstReset true today runs st).1).2.1 = false)
      ∧ ((executeScheduledReset isFirstReset true today runs st).2.1 = true →
          (if isFirstReset then
              (executeScheduledReset isFirstReset true today runs st).1.firstResetToday
            else
              (executeScheduledReset isFirstReset true today runs st).1.secondResetToday) = true
            ∧ (executeScheduledReset isFirstReset true today runs st).1.lastExecutionDate
                = today)
      ∧ ((executeScheduledReset isFirstReset true today runs st).2.1 = true →
          (executeScheduledReset isFirstReset true nextDay nextRuns
            (executeScheduledReset isFirstReset true today runs st).1).2.1 = true) := by
  refine ⟨?_, ?_, ?_⟩
  · intro h
    rw [executeScheduledReset_ran_eq isFirstReset today runs st h]
    exact executeScheduledReset_after_mark_same_day isFirstReset today runs2
      (rollover today st)
  · intro h
    rw [executeScheduledReset_ran_eq isFirstReset today runs st h]
    cases isFirstReset <;> simp [markResetExecuted]
  · intro h
    rw [executeScheduledReset_ran_eq isFirstReset today runs st h]
    exact executeScheduledReset_after_mark_next_day isFirstReset today nextDay
      nextRuns (rollover today st) (fun e => hday e.symm) hruns

/-- Witness for `scheduledReset_dedupe` at a concrete state: a first firing
runs, the same-day refire is skipped, and the next-day firing runs again. -/
theorem scheduledReset_dedupe_witness :
    ((executeScheduledReset true true "2026-10-11" [.fulfilled .SUCCESS "ok"]
        ⟨"2026-10-10", false, false⟩).2.1 = true)
      ∧ ((executeScheduledReset true true "2026-10-11" [.fulfilled .FAILED "x"]
          (executeScheduledReset true true "2026-10-11" [.fulfilled .SUCCESS "ok"]
            ⟨"2026-10-10", false, false⟩).1).2.1 = false)
      ∧ ((executeScheduledReset true true "2026-10-12" [.rejected "boom"]
          (executeScheduledReset true true "2026-10-11" [.fulfilled .SUCCESS "ok"]
            ⟨"2026-10-10", false, false⟩).1).2.1 = true) := by
  have h1 : (executeScheduledReset true true "2026-10-11" [.fulfilled .SUCCESS "ok"]
      ⟨"2026-10-10", false, false⟩).2.1 = true := by
    simp [executeScheduledReset, rollover, markResetExecuted]
  have h := scheduledReset_dedupe true "2026-10-11" "2026-10-12"
    [.fulfilled .SUCCESS "ok"] [.fulfilled .FAILED "x"] [.rejected "boom"]
    ⟨"2026-10-10", false, false⟩ (by simp) (by simp)
  exact ⟨h1, h.1 h1, h.2.2 h1⟩

/-! ### C1 — PAY_PER_USE subscriptions are never eligible -/

theorem countAndPlanCheck_keep_monthly (rt : Option ResetType) (sub : Subscription)
    (h : countAndPlanCheck rt sub = .keep) :
    isMonthlySubscription sub = true ∧ isActiveSubscription sub = true := by
  unfold countAndPlanCheck at h
  split_ifs at h with h1 h2 h3 h4
  all_goals simp_all

theorem filterDecision_keep_not_paygo (manual : Bool) (rt : Option ResetType)
    (now : Int) (fmt : Int → String) (sub : Subscription)
    (h : filterDecision manual rt now fmt sub = .keep) :
    isPaygoSubscription sub = false ∧ isMonthlySubscription sub = true
      ∧ isActiveSubscription sub = true := by
  unfold filterDecision at h
  by_cases h1 : strIncludes (strToUpper sub.subscriptionName) "FREE" = true
  · rw [if_pos h1] at h
    exact absurd h (by simp)
  · rw [if_neg h1] at h
    by_cases h2 : isPaygoSubscription sub = true
    · rw [if_pos h2] at h
      exact absurd h (by simp)
    · rw [if_neg h2] at h
      have hpay : isPaygoSubscription sub = false := by
        cases hp : isPaygoSubscription sub
        · rfl
        · exact absurd hp h2
      refine ⟨hpay, ?_⟩
      revert h
      cases sub.lastCreditReset with
      | none => exact fun h => countAndPlanCheck_keep_monthly rt sub h
      | some t =>
        intro h
        dsimp only at h
        by_cases hc : manual = true ∧ now - t < cooldownPeriodMs
        · rw [if_pos hc] at h
          exact absurd h (by simp)
        · rw [if_neg hc] at h
          exact countAndPlanCheck_keep_monthly rt sub h

theorem runFilter_eligible_keep (manual : Bool) (rt : Option ResetType)
    (now : Int) (fmt : Int → String) (subs : List Subscription) (sub : Subscription)
    (h : sub ∈ (runFilter manual rt now fmt subs).eligible) :
    filterDecision manual rt now fmt sub = .keep := by
  induction subs with
  | nil => simp [runFilter] at h
  | cons s rest ih =>
    unfold runFilter at h
    revert h
    cases hd : filterDecision manual rt now fmt s with
    | keep =>
      intro h
      rcases List.mem_cons.mp h with h | h
      · subst h; exact hd
      · exact ih h
    | dropSilent => exact fun h => ih h
    | skip m => exact fun h => ih h

/-- C1: for every account run — any `manual` flag, any reset-type, any
wall-clock time and any subscription list — a subscription whose plan
category is `PAY_PER_USE` is never in the eligible set `executeReset` hands
to the concurrent reset phase (every eligible subscription is in fact an
active `MONTHLY` one). -/
theorem paygo_never_eligible (manual : Bool) (rt : Option ResetType)
    (now : Int) (fmt : Int → String) (subs : List Subscription) (sub : Subscription)
    (h : sub ∈ (runFilter manual rt now fmt subs).eligible) :
    sub.planType ≠ "PAY_PER_USE" ∧ isPaygoSubscription sub = false
      ∧ sub.planType = "MONTHLY" ∧ sub.isActive = true := by
  have hk := filterDecision_keep_not_paygo manual rt now fmt sub
    (runFilter_eligible_keep manual rt now fmt subs sub h)
  have hm : sub.planType = "MONTHLY" := by
    have := hk.2.1
    simpa [isMonthlySubscription] using this
  exact ⟨by simp [hm], hk.1, hm, by simpa [isActiveSubscription] using hk.2.2⟩

/-- An eligible active MONTHLY subscription with both daily resets left. -/
def plusSub : Subscription :=
  { id := 1, subscriptionName := "PLUS", planType := "MONTHLY", isActive := true,
    currentCredits := 50, resetTimes := 2, lastCreditReset := none }

/-- Witness for `paygo_never_eligible` on a concrete eligible
subscription. -/
theorem paygo_never_eligible_witness :
    plusSub.planType ≠ "PAY_PER_USE" ∧ isPaygoSubscription plusSub = false
      ∧ plusSub.planType = "MONTHLY" ∧ plusSub.isActive = true :=
  paygo_never_eligible false (some .FIRST) 0 (fun _ => "") [plusSub] plusSub
    (by decide)

/-! ### C6 — reset-type-specific count requirements -/

theorem filterDecision_passes (manual : Bool) (rt : Option ResetType) (now : Int)
    (fmt : Int → String) (sub : Subscription)
    (hfree : strIncludes (strToUpper sub.subscriptionName) "FREE" = false)
    (hpaygo : isPaygoSubscription sub = false)
    (hcool : ¬(manual = true
      ∧ ∃ t, sub.lastCreditReset = some t ∧ now - t < cooldownPeriodMs)) :
    filterDecision manual rt now fmt sub = countAndPlanCheck rt sub := by
  unfold filterDecision
  rw [if_neg (by simp [hfree]), if_neg (by simp [hpaygo])]
  cases hl : sub.lastCreditReset with
  | none => rfl
  | some t =>
    dsimp only
    rw [if_neg (fun hc => hcool ⟨hc.1, t, hl, hc.2⟩)]

theorem countAndPlanCheck_keep_iff (rt : Option ResetType) (sub : Subscription) :
    countAndPlanCheck rt sub = .keep
      ↔ ¬(rt = some .FIRST ∧ sub.resetTimes < 2)
        ∧ ¬(rt = some .SECOND ∧ sub.resetTimes < 1)
        ∧ ¬(rt = some .MANUAL ∧ sub.resetTimes = 0)
        ∧ isMonthlySubscription sub = true ∧ isActiveSubscription sub = true := by
  unfold countAndPlanCheck
  split_ifs with h1 h2 h3 h4 <;> simp_all

/-- C6: once the plan-name, PAYGO, and cooldown checks have passed, a
subscription is eligible (still subject to the active-MONTHLY check) for
`FIRST` exactly when its remaining count is ≥ 2, for `SECOND` exactly when it
is ≥ 1, and for `MANUAL` exactly when it is nonzero; when excluded for count,
the SKIPPED message is the one naming the requirement and the actual count. -/
theorem count_requirements (manual : Bool) (now : Int) (fmt : Int → String)
    (sub : Subscription)
    (hfree : strIncludes (strToUpper sub.subscriptionName) "FREE" = false)
    (hpaygo : isPaygoSubscription sub = false)
    (hcool : ¬(manual = true
      ∧ ∃ t, sub.lastCreditReset = some t ∧ now - t < cooldownPeriodMs)) :
    (filterDecision manual (some .FIRST) now fmt sub = .keep
        ↔ 2 ≤ sub.resetTimes ∧ isMonthlySubscription sub = true
            ∧ isActiveSubscription sub = true)
      ∧ (sub.resetTimes < 2 →
          filterDecision manual (some .FIRST) now fmt sub
            = .skip (firstCountSkipMsg sub))
      ∧ (filterDecision manual (some .SECOND) now fmt sub = .keep
          ↔ 1 ≤ sub.resetTimes ∧ isMonthlySubscription sub = true
              ∧ isActiveSubscription sub = true)
      ∧ (sub.resetTimes < 1 →
          filterDecision manual (some .SECOND) now fmt sub
            = .skip (secondCountSkipMsg sub))
      ∧ (filterDecision manual (some .MANUAL) now fmt sub = .keep
          ↔ sub.resetTimes ≠ 0 ∧ isMonthlySubscription sub = true
              ∧ isActiveSubscription sub = true)
      ∧ (sub.resetTimes = 0 →
          filterDecision manual (some .MANUAL) now fmt sub
            = .skip (manualCountSkipMsg sub)) := by
  have hp : ∀ rt, filterDecision manual rt now fmt sub = countAndPlanCheck rt sub :=
    fun rt => filterDecision_passes manual rt now fmt sub hfree hpaygo hcool
  refine ⟨?_, ?_, ?_, ?_, ?_, ?_⟩
  · rw [hp, countAndPlanCheck_keep_iff]
    simp [Nat.not_lt]
  · intro hlt
    rw [hp]
    unfold countAndPlanCheck
    rw [if_pos ⟨rfl, hlt⟩]
  · rw [hp, countAndPlanCheck_keep_iff]
    simp [Nat.not_lt]
    intro _ _
    omega
  · intro hlt
    rw [hp]
    unfold countAndPlanCheck
    rw [if_neg (by simp), if_pos ⟨rfl, hlt⟩]
  · rw [hp, countAndPlanCheck_keep_iff]
    simp [Nat.not_lt]
  · intro h0
    rw [hp]
    unfold countAndPlanCheck
    rw [if_neg (by simp), if_neg (by simp), if_pos ⟨rfl, h0⟩]

/-- An active MONTHLY subscription with a single remaining reset. -/
def onceSub : Subscription :=
  { id := 4, subscriptionName := "PLUS", planType := "MONTHLY", isActive := true,
    currentCredits := 20, resetTimes := 1, lastCreditReset := none }

/-- Witness for `count_requirements`: with one remaining reset, a FIRST
request is excluded with the count-requirement message and a SECOND request
is eligible. -/
theorem count_requirements_witness :
    (filterDecision false (some .FIRST) 0 (fun _ => "") onceSub
        = .skip (firstCountSkipMsg onceSub))
      ∧ filterDecision false (some .SECOND) 0 (fun _ => "") onceSub = .keep :=
  ⟨(count_requirements false 0 (fun _ => "") onceSub (by decide) (by decide)
      (by simp)).2.1 (by decide),
   (count_requirements false 0 (fun _ => "") onceSub (by decide) (by decide)
      (by simp)).2.2.1.mpr ⟨by decide, by decide, by decide⟩⟩

/-! ### C7 — the 5-hour cooldown applies only to manual requests -/

theorem strData_append (a b : String) : (a ++ b).data = a.data ++ b.data := rfl

/-- Two string concatenations whose left parts begin with different
characters are different strings. -/
theorem append_ne_of_head (c d : Char) (a b r t : String)
    (hc : a.data.head? = some c) (hd : b.data.head? = some d) (hne : c ≠ d) :
    a ++ r ≠ b ++ t := by
  intro he
  have h2 : (a ++ r).data.head? = (b ++ t).data.head? := by rw [he]
  rw [strData_append, strData_append] at h2
  cases ha : a.data with
  | nil => rw [ha] at hc; exact Option.noConfusion hc
  | cons x xs =>
    cases hb : b.data with
    | nil => rw [hb] at hd; exact Option.noConfusion hd
    | cons y ys =>
      rw [ha] at h2 hc
      rw [hb] at h2 hd
      simp only [List.cons_append, List.head?_cons, Option.some.injEq] at h2 hc hd
      exact hne (hc ▸ hd ▸ h2)

/-- No outcome of the count/plan checks carries the cooldown message: every
message they produce starts with a different character. -/
theorem countAndPlanCheck_ne_cooldown (rt : Option ResetType) (sub : Subscription)
    (fmt : Int → String) (t now : Int) :
    countAndPlanCheck rt sub ≠ .skip (cooldownSkipMsg fmt t now) := by
  unfold countAndPlanCheck
  split_ifs <;> intro h
  · injection h with hm
    simp only [firstCountSkipMsg, cooldownSkipMsg] at hm
    exact append_ne_of_head '首' '还' _ _ _ _ (by decide) (by decide) (by decide) hm
  · injection h with hm
    simp only [secondCountSkipMsg, cooldownSkipMsg] at hm
    exact append_ne_of_head '二' '还' _ _ _ _ (by decide) (by decide) (by decide) hm
  · injection h with hm
    simp only [manualCountSkipMsg, cooldownSkipMsg] at hm
    exact append_ne_of_head '剩' '还' _ _ _ _ (by decide) (by decide) (by decide) hm
  · exact FilterDecision.noConfusion h
  · injection h with hm
    simp only [notEligibleSkipMsg, cooldownSkipMsg] at hm
    exact append_ne_of_head '订' '还' _ _ _ _ (by decide) (by decide) (by decide) hm

/-- C7: for a subscription past the plan-name and PAYGO checks with a
last-reset timestamp `t`, the filter excludes it with the cooldown message —
which carries the remaining wait and the formatted next-eligible time —
precisely when the request is manual and less than five hours have elapsed
since `t`; a non-manual (scheduled `FIRST`/`SECOND`) request is never
cooldown-excluded and goes straight to the count/plan checks. -/
theorem cooldown_only_manual (manual : Bool) (rt : Option ResetType)
    (now t : Int) (fmt : Int → String) (sub : Subscription)
    (hfree : strIncludes (strToUpper sub.subscriptionName) "FREE" = false)
    (hpaygo : isPaygoSubscription sub = false)
    (hlast : sub.lastCreditReset = some t) :
    (filterDecision manual rt now fmt sub = .skip (cooldownSkipMsg fmt t now)
        ↔ manual = true ∧ now - t < cooldownPeriodMs)
      ∧ (manual = false →
          filterDecision manual rt now fmt sub = countAndPlanCheck rt sub) := by
  constructor
  · unfold filterDecision
    rw [if_neg (by simp [hfree]), if_neg (by simp [hpaygo]), hlast]
    dsimp only
    by_cases hc : manual = true ∧ now - t < cooldownPeriodMs
    · rw [if_pos hc]
      exact iff_of_true rfl hc
    · rw [if_neg hc]
      exact iff_of_false (countAndPlanCheck_ne_cooldown rt sub fmt t now) hc
  · intro hm
    refine filterDecision_passes manual rt now fmt sub hfree hpaygo ?_
    rintro ⟨hmt, -⟩
    rw [hm] at hmt
    exact Bool.noConfusion hmt

/-- A MONTHLY subscription last reset at epoch time 0. -/
def cooledSub : Subscription :=
  { id := 7, subscriptionName := "PLUS", planType := "MONTHLY", isActive := true,
    currentCredits := 0, resetTimes := 2, lastCreditReset := some 0 }

/-- Witness for `cooldown_only_manual`: at T+4h59m a manual request is
cooldown-excluded, while a scheduled request at the same instant passes on to
the count checks. -/
theorem cooldown_only_manual_witness :
    (filterDecision true (some .MANUAL) 17940000 (fun _ => "") cooledSub
        = .skip (cooldownSkipMsg (fun _ => "") 0 17940000))
      ∧ filterDecision false (some .FIRST) 17940000 (fun _ => "") cooledSub
          = countAndPlanCheck (some .FIRST) cooledSub :=
  ⟨(cooldown_only_manual true (some .MANUAL) 17940000 0 (fun _ => "") cooledSub
      (by decide) (by decide) rfl).1.mpr ⟨rfl, by decide⟩,
   (cooldown_only_manual false (some .FIRST) 17940000 0 (fun _ => "") cooledSub
      (by decide) (by decide) rfl).2 rfl⟩

/-! ### C4 — aggregation of per-subscription outcomes -/

theorem runResets_counts (remote : Subscription → RemoteOutcome)
    (l : List Subscription) :
    (runResets remote l).2.1 + (runResets remote l).2.2 = l.length := by
  induction l with
  | nil => rfl
  | cons s rest ih =>
    unfold runResets
    by_cases hs : (settledRecord remote s).status = .SUCCESS
    · rw [if_pos hs, if_pos hs]
      dsimp only [List.length_cons]
      omega
    · rw [if_neg hs, if_neg hs]
      dsimp only [List.length_cons]
      omega

theorem executeReset_run_fields (manual : Bool) (rt : Option ResetType)
    (now : Int) (fmt : Int → String) (remote : Subscription → RemoteOutcome)
    (subs : List Subscription)
    (hne : (runFilter manual rt now fmt subs).eligible ≠ []) :
    (executeReset manual rt now fmt remote (.ok subs)).successCount
        = (runResets remote (runFilter manual rt now fmt subs).eligible).2.1
      ∧ (executeReset manual rt now fmt remote (.ok subs)).failedCount
          = (runResets remote (runFilter manual rt now fmt subs).eligible).2.2
      ∧ (executeReset manual rt now fmt remote (.ok subs)).status
          = (if (runResets remote (runFilter manual rt now fmt subs).eligible).2.2 = 0
             then .SUCCESS
             else if 0 < (runResets remote (runFilter manual rt now fmt subs).eligible).2.1
             then .PARTIAL
             else .FAILED) := by
  have hsubs : subs ≠ [] := by
    intro h
    apply hne
    rw [h]
    rfl
  simp only [executeReset]
  rw [if_neg hsubs, if_neg hne]
  exact ⟨rfl, rfl, rfl⟩

/-- C4: whenever at least one subscription survives the filter, the account
status is `SUCCESS` iff no reset failed (and then at least one succeeded),
`PARTIAL` iff some succeeded and some failed, and `FAILED` iff none succeeded
and some failed; when nothing survives the filter the status is `SKIPPED`, so
skipped subscriptions alone never make a run `FAILED`. -/
theorem aggregate_status (manual : Bool) (rt : Option ResetType) (now : Int)
    (fmt : Int → String) (remote : Subscription → RemoteOutcome)
    (subs : List Subscription) :
    ((runFilter manual rt now fmt subs).eligible ≠ [] →
        ((executeReset manual rt now fmt remote (.ok subs)).status = .SUCCESS
            ↔ (executeReset manual rt now fmt remote (.ok subs)).failedCount = 0
              ∧ 0 < (executeReset manual rt now fmt remote (.ok subs)).successCount)
          ∧ ((executeReset manual rt now fmt remote (.ok subs)).status = .PARTIAL
            ↔ 0 < (executeReset manual rt now fmt remote (.ok subs)).successCount
              ∧ 0 < (executeReset manual rt now fmt remote (.ok subs)).failedCount)
          ∧ ((executeReset manual rt now fmt remote (.ok subs)).status = .FAILED
            ↔ (executeReset manual rt now fmt remote (.ok subs)).successCount = 0
              ∧ 0 < (executeReset manual rt now fmt remote (.ok subs)).failedCount))
      ∧ ((runFilter manual rt now fmt subs).eligible = [] →
          (executeReset manual rt now fmt remote (.ok subs)).status = .SKIPPED) := by
  constructor
  · intro hne
    obtain ⟨hsc, hfc, hst⟩ :=
      executeReset_run_fields manual rt now fmt remote subs hne
    have hsum := runResets_counts remote (runFilter manual rt now fmt subs).eligible
    have hlen : 0 < (runFilter manual rt now fmt subs).eligible.length :=
      List.length_pos.mpr hne
    rw [hst, hsc, hfc]
    split_ifs with hF hS
    · exact ⟨iff_of_true rfl ⟨hF, by omega⟩,
        iff_of_false (by simp) (by omega),
        iff_of_false (by simp) (by omega)⟩
    · exact ⟨iff_of_false (by simp) (by omega),
        iff_of_true rfl ⟨hS, by omega⟩,
        iff_of_false (by simp) (by omega)⟩
    · exact ⟨iff_of_false (by simp) (by omega),
        iff_of_false (by simp) (by omega),
        iff_of_true rfl ⟨by omega, by omega⟩⟩
  · intro he
    by_cases hsubs : subs = []
    · subst hsubs
      rfl
    · simp only [executeReset]
      rw [if_neg hsubs, if_pos he]

/-- A second eligible active MONTHLY subscription, whose remote reset will
reject in the witness. -/
def plusSubB : Subscription :=
  { id := 2, subscriptionName := "MAX", planType := "MONTHLY", isActive := true,
    currentCredits := 10, resetTimes := 2, lastCreditReset := none }

/-- A remote oracle that resolves subscription 1 successfully and rejects
every other reset. -/
def mixedRemote : Subscription → RemoteOutcome :=
  fun sub =>
    if sub.id = 1 then
      .resp { success := true, message := "重置成功", data := none, error := none }
    else
      .rejected "network down"

/-- Witness for `aggregate_status` on a two-subscription account with one
success and one rejection. -/
theorem aggregate_status_witness :
    ((executeReset false (some .FIRST) 0 (fun _ => "") mixedRemote
        (.ok [plusSub, plusSubB])).status = .SUCCESS
      ↔ (executeReset false (some .FIRST) 0 (fun _ => "") mixedRemote
          (.ok [plusSub, plusSubB])).failedCount = 0
        ∧ 0 < (executeReset false (some .FIRST) 0 (fun _ => "") mixedRemote
            (.ok [plusSub, plusSubB])).successCount)
    ∧ ((executeReset false (some .FIRST) 0 (fun _ => "") mixedRemote
        (.ok [plusSub, plusSubB])).status = .PARTIAL
      ↔ 0 < (executeReset false (some .FIRST) 0 (fun _ => "") mixedRemote
            (.ok [plusSub, plusSubB])).successCount
        ∧ 0 < (executeReset false (some .FIRST) 0 (fun _ => "") mixedRemote
            (.ok [plusSub, plusSubB])).failedCount)
    ∧ ((executeReset false (some .FIRST) 0 (fun _ => "") mixedRemote
        (.ok [plusSub, plusSubB])).status = .FAILED
      ↔ (executeReset false (some .FIRST) 0 (fun _ => "") mixedRemote
          (.ok [plusSub, plusSubB])).successCount = 0
        ∧ 0 < (executeReset false (some .FIRST) 0 (fun _ => "") mixedRemote
            (.ok [plusSub, plusSubB])).failedCount) :=
  (aggregate_status false (some .FIRST) 0 (fun _ => "") mixedRemote
    [plusSub, plusSubB]).1 (by decide)

/-! ### C10 — FREE-named subscriptions are dropped without a SKIPPED record -/

theorem runFilter_allFree (manual : Bool) (rt : Option ResetType) (now : Int)
    (fmt : Int → String) (subs : List Subscription)
    (hall : ∀ x ∈ subs, strIncludes (strToUpper x.subscriptionName) "FREE" = true) :
    runFilter manual rt now fmt subs
      = { eligible := [], records := [], skippedCount := 0 } := by
  induction subs with
  | nil => rfl
  | cons s rest ih =>
    have hd : filterDecision manual rt now fmt s = .dropSilent := by
      unfold filterDecision
      rw [if_pos (hall s (List.mem_cons_self s rest))]
    unfold runFilter
    rw [ih (fun x hx => hall x (List.mem_cons_of_mem s hx)), hd]

/-- C10: a subscription whose plan name contains `FREE` (case-insensitively)
is dropped by the filter with no SKIPPED record and no `skippedCount`
increment, so an account all of whose subscriptions are FREE-named ends with
status `SKIPPED`, `skippedCount = 0`, an empty per-subscription outcome list,
and the generic no-eligible-MONTHLY summary. -/
theorem free_subscriptions_silent (manual : Bool) (rt : Option ResetType)
    (now : Int) (fmt : Int → String) (remote : Subscription → RemoteOutcome)
    (s : Subscription) (subs : List Subscription)
    (hs : strIncludes (strToUpper s.subscriptionName) "FREE" = true)
    (hall : ∀ x ∈ subs, strIncludes (strToUpper x.subscriptionName) "FREE" = true)
    (hne : subs ≠ []) :
    filterDecision manual rt now fmt s = .dropSilent
      ∧ (executeReset manual rt now fmt remote (.ok subs)).status = .SKIPPED
      ∧ (executeReset manual rt now fmt remote (.ok subs)).skippedCount = 0
      ∧ (executeReset manual rt now fmt remote (.ok subs)).subscriptions = []
      ∧ (executeReset manual rt now fmt remote (.ok subs)).summary
          = "没有符合重置条件的 MONTHLY 订阅" := by
  have hfd : filterDecision manual rt now fmt s = .dropSilent := by
    unfold filterDecision
    rw [if_pos hs]
  have hex : executeReset manual rt now fmt remote (.ok subs)
      = { status := .SKIPPED, subscriptions := [], successCount := 0,
          failedCount := 0, skippedCount := 0, summary := skippedSummary [] } := by
    simp only [executeReset]
    rw [if_neg hne, runFilter_allFree manual rt now fmt subs hall]
    rfl
  rw [hex]
  exact ⟨hfd, rfl, rfl, rfl, rfl⟩

/-- A subscription whose plan name contains `FREE`. -/
def freeSub : Subscription :=
  { id := 9, subscriptionName := "Free Tier", planType := "MONTHLY",
    isActive := true, currentCredits := 0, resetTimes := 2,
    lastCreditReset := none }

/-- Witness for `free_subscriptions_silent` on an account holding only a
FREE-named subscription. -/
theorem free_subscriptions_silent_witness :
    filterDecision false (some .FIRST) 0 (fun _ => "") freeSub = .dropSilent
      ∧ (executeReset false (some .FIRST) 0 (fun _ => "")
          (fun _ => .rejected "unused") (.ok [freeSub])).status = .SKIPPED
      ∧ (executeReset false (some .FIRST) 0 (fun _ => "")
          (fun _ => .rejected "unused") (.ok [freeSub])).skippedCount = 0
      ∧ (executeReset false (some .FIRST) 0 (fun _ => "")
          (fun _ => .rejected "unused") (.ok [freeSub])).subscriptions = []
      ∧ (executeReset false (some .FIRST) 0 (fun _ => "")
          (fun _ => .rejected "unused") (.ok [freeSub])).summary
          = "没有符合重置条件的 MONTHLY 订阅" :=
  free_subscriptions_silent false (some .FIRST) 0 (fun _ => "")
    (fun _ => .rejected "unused") freeSub [freeSub] (by decide) (by decide)
    (by decide)

end Code88
